import Mathlib

/-!
Verification of the ePIC device adapter (`pyasic/miners/backends/epic.py`).

The adapter's field extractors receive already-fetched JSON payloads (or fetch
them through the web transport when not supplied) and defensively parse them
into typed telemetry values.  We embed the relevant Python semantics shallowly:

* `Json` models the parsed payloads (Python dicts, lists, strings, numbers,
  booleans, `None`); numbers are exact rationals (`ℚ`), so integral rationals
  play the role of Python ints.
* `PyExc` models the exception classes the adapter's `except` clauses mention;
  fallible operations return `Except PyExc α`, and an `Except.error` that
  escapes a definition models an exception propagating out of the Python
  function.
* Transport calls (`self.web.summary()` etc.) are passed in as an explicit
  `Fetch` argument: `Except.ok payload` for a successful call, `Except.error`
  for an `APIError` raised by the transport.
* Container equality in `Json.pyEq` is structural; Python's bool/number
  cross-type equality is modelled for scalars, which is where the adapter
  compares values (`Index` fields).  Rounding uses round-half-up on rationals.
-/

/-- Python exception classes appearing in the adapter's `except` clauses:
`KeyError` and `IndexError` (both subclasses of `LookupError`), `TypeError`,
`ValueError`, and `AttributeError` (raised e.g. by `None.get(...)` and never
caught by the adapter). -/
inductive PyExc where
  | keyError
  | indexError
  | typeError
  | valueError
  | attributeError
deriving Repr, DecidableEq

/-- Parsed JSON payloads as delivered by the web transport: Python `None`,
booleans, numbers (exact rationals), strings, lists and string-keyed dicts. -/
inductive Json where
  | null : Json
  | bool : Bool → Json
  | num : ℚ → Json
  | str : String → Json
  | arr : List Json → Json
  | obj : List (String × Json) → Json
deriving Repr

mutual

/-- Structural equality of payload values (numbers as exact rationals). -/
def Json.beq : Json → Json → Bool
  | Json.null, Json.null => true
  | Json.bool a, Json.bool b => a == b
  | Json.num a, Json.num b => a == b
  | Json.str a, Json.str b => a == b
  | Json.arr a, Json.arr b => Json.beqList a b
  | Json.obj a, Json.obj b => Json.beqKVs a b
  | _, _ => false

/-- Elementwise structural equality of payload lists. -/
def Json.beqList : List Json → List Json → Bool
  | [], [] => true
  | a :: as, b :: bs => Json.beq a b && Json.beqList as bs
  | _, _ => false

/-- Entrywise structural equality of payload dicts (Python dicts preserve
insertion order; comparing entrywise is faithful up to reordering, which the
adapter never relies on). -/
def Json.beqKVs : List (String × Json) → List (String × Json) → Bool
  | [], [] => true
  | (k1, v1) :: as, (k2, v2) :: bs =>
    k1 == k2 && Json.beq v1 v2 && Json.beqKVs as bs
  | _, _ => false

end

/-- Python truthiness (`if data:`): `None`, `False`, `0`, `""` and empty
containers are falsy. -/
def Json.truthy : Json → Bool
  | Json.null => false
  | Json.bool b => b
  | Json.num q => !(q == 0)
  | Json.str s => !(s == "")
  | Json.arr xs => !xs.isEmpty
  | Json.obj kvs => !kvs.isEmpty

/-- Python `d[k]` with a string key: dict lookup (`KeyError` when missing),
`TypeError` on lists/strings/scalars (string indices must be integers, etc.). -/
def Json.getKey (j : Json) (k : String) : Except PyExc Json :=
  match j with
  | Json.obj kvs =>
    match kvs.lookup k with
    | some v => Except.ok v
    | none => Except.error PyExc.keyError
  | _ => Except.error PyExc.typeError

/-- Python `d.get(k)`: `None` when the key is missing; calling `.get` on a
non-dict (including `None`) raises `AttributeError`. -/
def Json.get (j : Json) (k : String) : Except PyExc Json :=
  match j with
  | Json.obj kvs => Except.ok ((kvs.lookup k).getD Json.null)
  | _ => Except.error PyExc.attributeError

/-- Python `x[i]` with a non-negative integer literal index: list indexing
(`IndexError` out of range), string indexing yields a one-character string,
`KeyError` on a string-keyed dict, `TypeError` on scalars. -/
def Json.getIdx (j : Json) (i : Nat) : Except PyExc Json :=
  match j with
  | Json.arr xs =>
    match xs.get? i with
    | some v => Except.ok v
    | none => Except.error PyExc.indexError
  | Json.str s =>
    match s.toList.get? i with
    | some c => Except.ok (Json.str (String.mk [c]))
    | none => Except.error PyExc.indexError
  | Json.obj _ => Except.error PyExc.keyError
  | _ => Except.error PyExc.typeError

/-- Python `for x in j`: lists yield elements, dicts yield their keys,
strings yield one-character strings; scalars and `None` raise `TypeError`. -/
def Json.iter : Json → Except PyExc (List Json)
  | Json.arr xs => Except.ok xs
  | Json.obj kvs => Except.ok (kvs.map (fun kv => Json.str kv.1))
  | Json.str s => Except.ok (s.toList.map (fun c => Json.str (String.mk [c])))
  | _ => Except.error PyExc.typeError

/-- Coerce a value to a number for Python arithmetic (`+`, `/`): numbers are
themselves, booleans are 0/1 (Python `bool` is an `int` subclass), everything
else raises `TypeError`. -/
def Json.toNum : Json → Except PyExc ℚ
  | Json.num q => Except.ok q
  | Json.bool b => Except.ok (if b then 1 else 0)
  | _ => Except.error PyExc.typeError

/-- Python `len(j)`: containers and strings have a length, scalars raise
`TypeError`. -/
def Json.pyLen : Json → Except PyExc Nat
  | Json.arr xs => Except.ok xs.length
  | Json.obj kvs => Except.ok kvs.length
  | Json.str s => Except.ok s.length
  | _ => Except.error PyExc.typeError

/-- Python `x == 0`: numeric comparison for numbers and booleans
(`False == 0` is true), `False` for every other value (no exception). -/
def Json.eqZero : Json → Bool
  | Json.num q => q == 0
  | Json.bool b => !b
  | _ => false

/-- Python `==` as used on the `Index` fields: bool/number cross-type equality
for scalars; containers compare structurally (numbers being exact rationals). -/
def Json.pyEq (a b : Json) : Bool :=
  match a, b with
  | Json.bool x, Json.num q => (if x then (1 : ℚ) else 0) == q
  | Json.num q, Json.bool x => q == (if x then (1 : ℚ) else 0)
  | _, _ => Json.beq a b

/-- Resolve an integer index into a Python list of length `len`: negative
indices count from the end, out-of-range raises `IndexError`, non-integer
values raise `TypeError` (booleans index as 0/1). -/
def Json.toPyIndex (j : Json) (len : Nat) : Except PyExc Nat :=
  match j with
  | Json.num q =>
    if q.den = 1 then
      if 0 ≤ q.num then
        if q.num < len then Except.ok q.num.toNat else Except.error PyExc.indexError
      else
        if 0 ≤ q.num + len then Except.ok (q.num + len).toNat
        else Except.error PyExc.indexError
    else Except.error PyExc.typeError
  | Json.bool b =>
    if (if b then 1 else 0) < len then Except.ok (if b then 1 else 0)
    else Except.error PyExc.indexError
  | _ => Except.error PyExc.typeError

/-- Python `j[k]` with an arbitrary subscript value `k`. -/
def Json.pySubscript (j k : Json) : Except PyExc Json :=
  match j with
  | Json.obj kvs =>
    match k with
    | Json.str s =>
      match kvs.lookup s with
      | some v => Except.ok v
      | none => Except.error PyExc.keyError
    | _ => Except.error PyExc.keyError
  | Json.arr xs => do
    let i ← k.toPyIndex xs.length
    pure (xs.getD i Json.null)
  | Json.str s => do
    let i ← k.toPyIndex s.length
    pure (Json.str (String.mk [s.toList.getD i ' ']))
  | _ => Except.error PyExc.typeError

/-- Python `round(x)` to an integer; non-numbers raise `TypeError`.
(Rationals round half up; the adapter's claims do not exercise ties.) -/
def Json.pyRound : Json → Except PyExc ℤ
  | Json.num q => Except.ok (round q)
  | Json.bool b => Except.ok (if b then 1 else 0)
  | _ => Except.error PyExc.typeError

/-- Python `round(x, 2)` on a rational. -/
def round2 (q : ℚ) : ℚ := ((round (q * 100) : ℤ) : ℚ) / 100

/-- Does `except (LookupError, ValueError, TypeError)` catch this exception?
It catches everything the adapter's helpers raise except `AttributeError`. -/
def PyExc.caughtLVT : PyExc → Bool
  | PyExc.attributeError => false
  | _ => true

/-- Result of one transport call (`self.web.summary()` etc.): the parsed
payload, or an `APIError` raised by the transport. -/
abbrev Fetch := Except Unit Json

/-- Dependency resolution used by the adapter's extractors (e.g. `_get_mac`
lines 148-152, and the `web_summary` blocks of `_get_fw_ver`, `_get_wattage`,
`_get_uptime`, `_get_fault_light`, `_get_fans`, `_get_hashrate`,
`_get_expected_hashrate`, `_get_hashboards`): the payload is fetched only when
it was not supplied (`if web_summary is None:`), and a fetch failing with
`APIError` is swallowed, leaving the payload absent.  The second component
records whether a transport fetch was attempted. -/
def resolveDep (supplied : Option Json) (fetch : Fetch) : Option Json × Bool :=
  match supplied with
  | some j => (some j, false)
  | none =>
    match fetch with
    | Except.ok j => (some j, true)
    | Except.error _ => (none, true)

/-- The `web_hashrate` resolution of `_get_hashboards` (lines 271-275): the
guard there is `if web_hashrate is not None:`, so a transport fetch is
attempted exactly when the payload WAS supplied (the fetched payload replacing
the supplied one unless the fetch fails with `APIError`), and a payload that
was not supplied stays `None`.  The second component records whether a
transport fetch was attempted. -/
def resolveHashrateDep (supplied : Option Json) (fetch : Fetch) : Option Json × Bool :=
  match supplied with
  | some j =>
    (match fetch with
     | Except.ok j2 => some j2
     | Except.error _ => some j, true)
  | none => (none, false)

/-- Modelled from the spec: the normalized `Fan` record of `pyasic.data`
(not under `src/`) — "a Fan record (rotational speed, possibly unknown)";
`Fan()` with no argument is the unknown-speed record. -/
structure Fan where
  speed : Option ℚ := none
deriving Repr, DecidableEq

/-- Modelled from the spec: constructing `Fan(value)` from a payload value —
a numeric speed parses, any other value is a parse failure (raising one of
the `ValueError`/`TypeError` class of validation errors). -/
def Fan.fromJson : Json → Except PyExc Fan
  | Json.num q => Except.ok { speed := some q }
  | _ => Except.error PyExc.valueError

/-- Modelled from the spec: the normalized `HashBoard` record of `pyasic.data`
(not under `src/`) — "a HashBoard record (slot index, chip count, measured
hashrate, temperature, missing-flag)", pre-allocated "flagged as missing by
default" with the expected chip count from static capability metadata. -/
structure HashBoard where
  slot : Nat
  expected_chips : Option Nat := none
  chips : Option Nat := none
  hashrate : Option ℚ := none
  temp : Option Json := none
  missing : Bool := true
deriving Repr

/-- Modelled from the spec: the normalized configuration model (`MinerConfig`,
not under `src/`) — it carries the translation of a native payload
(`MinerConfig.from_epic(summary)`) or is the empty default (`MinerConfig()`). -/
structure MinerConfig where
  native : Option Json := none
deriving Repr

/-- Modelled from the spec: the family-specific constructor
`fromNativePayload(payload) -> Configuration` (`MinerConfig.from_epic`),
a total translation of the native payload. -/
def MinerConfig.from_epic (j : Json) : MinerConfig := { native := some j }

/-- The empty default configuration `MinerConfig()`. -/
def MinerConfig.empty : MinerConfig := {}

/-- Outcome of the `self.web.summary()` call inside `get_config`: a payload,
a `None` return, or one of the two exception classes `get_config` catches. -/
inductive SummaryFetch where
  | payload (j : Json)
  | returnedNone
  | apiError
  | lookupError
deriving Repr

/-- `ePIC.get_config` (lines 94-109): fetch the native summary payload,
swallowing `APIError` (logged) and `LookupError`; translate it via
`MinerConfig.from_epic` when present, else fall back to `MinerConfig()`. -/
def get_config : SummaryFetch → MinerConfig
  | SummaryFetch.payload j => MinerConfig.from_epic j
  | SummaryFetch.returnedNone => MinerConfig.empty
  | SummaryFetch.apiError => MinerConfig.empty
  | SummaryFetch.lookupError => MinerConfig.empty

/-- `ePIC.restart_backend` (lines 111-118): issue the command through the
Transport Client (modelled from the spec: the client returns the parsed
payload, or `none` when the endpoint is unavailable, never raising), return
`data["success"]` when the response is truthy, swallowing only `KeyError`;
every other path returns `False`. -/
def restart_backend (data : Option Json) : Except PyExc Json :=
  match data with
  | none => Except.ok (Json.bool false)
  | some d =>
    if d.truthy then
      match d.getKey "success" with
      | Except.ok v => Except.ok v
      | Except.error PyExc.keyError => Except.ok (Json.bool false)
      | Except.error e => Except.error e
    else Except.ok (Json.bool false)

/-- `ePIC.stop_mining` (lines 120-127): same response handling as
`restart_backend`, for the stop-mining command. -/
def stop_mining (data : Option Json) : Except PyExc Json :=
  match data with
  | none => Except.ok (Json.bool false)
  | some d =>
    if d.truthy then
      match d.getKey "success" with
      | Except.ok v => Except.ok v
      | Except.error PyExc.keyError => Except.ok (Json.bool false)
      | Except.error e => Except.error e
    else Except.ok (Json.bool false)

/-- `ePIC.resume_mining` (lines 129-136): same response handling as
`restart_backend`, for the resume-mining command. -/
def resume_mining (data : Option Json) : Except PyExc Json :=
  match data with
  | none => Except.ok (Json.bool false)
  | some d =>
    if d.truthy then
      match d.getKey "success" with
      | Except.ok v => Except.ok v
      | Except.error PyExc.keyError => Except.ok (Json.bool false)
      | Except.error e => Except.error e
    else Except.ok (Json.bool false)

/-- `ePIC.reboot` (lines 138-145): same response handling as
`restart_backend`, for the reboot command. -/
def reboot (data : Option Json) : Except PyExc Json :=
  match data with
  | none => Except.ok (Json.bool false)
  | some d =>
    if d.truthy then
      match d.getKey "success" with
      | Except.ok v => Except.ok v
      | Except.error PyExc.keyError => Except.ok (Json.bool false)
      | Except.error e => Except.error e
    else Except.ok (Json.bool false)

/-- The `ideal` divisor of `_get_expected_hashrate` (lines 220-223):
`1.0` when `hb["Hashrate"][1] == 0`, else `hb["Hashrate"][1] / 100`. -/
def idealOf (snd : Json) : Except PyExc ℚ :=
  if snd.eqZero then pure 1
  else do
    let q ← snd.toNum
    pure (q / 100)

/-- One board's contribution inside `_get_expected_hashrate` (lines 219-225):
`hb["Hashrate"][0] / ideal`. -/
def expectedBoard (hb : Json) : Except PyExc ℚ := do
  let pair ← hb.getKey "Hashrate"
  let snd ← pair.getIdx 1
  let ideal ← idealOf snd
  let fst ← pair.getIdx 0
  let m ← fst.toNum
  pure (m / ideal)

/-- The accumulation loop of `_get_expected_hashrate`
(`hashrate = 0; for hb in web_summary["HBs"]: hashrate += ...`). -/
def sumExpected (acc : ℚ) : List Json → Except PyExc ℚ
  | [] => Except.ok acc
  | hb :: rest => do
    let v ← expectedBoard hb
    sumExpected (acc + v) rest

/-- `ePIC._get_expected_hashrate` (lines 208-228): resolve the summary
dependency; when `web_summary.get("HBs")` is not `None`, sum each board's
measured hashrate over its efficiency ratio, divide by 1,000,000 and round to
2 decimals; `LookupError`/`ValueError`/`TypeError` anywhere in the body yield
`None` (absent); with no summary the function falls through to `None`.
`expectedHashrateBody` is the guarded body (lines 217-226). -/
def expectedHashrateBody (s : Json) : Except PyExc (Option ℚ) := do
  let hbs ← s.get "HBs"
  match hbs with
  | Json.null => pure none
  | _ => do
    let boards ← (← s.getKey "HBs").iter
    let total ← sumExpected 0 boards
    pure (some (round2 (total / 1000000)))

/-- The `try` wrapper of `_get_expected_hashrate` around `expectedHashrateBody`. -/
def get_expected_hashrate (web_summary : Option Json) (fetchSummary : Fetch) :
    Except PyExc (Option ℚ) :=
  match (resolveDep web_summary fetchSummary).1 with
  | none => Except.ok none
  | some s =>
    match expectedHashrateBody s with
    | Except.error e => if e.caughtLVT then Except.ok none else Except.error e
    | r => r

/-- Python `s.split(sep)` for a one-character separator (as in
`fw_ver.split(" ")`): split at every occurrence, keeping empty pieces. -/
def pySplitChar (c : Char) : List Char → List (List Char)
  | [] => [[]]
  | x :: xs =>
    let r := pySplitChar c xs
    if x = c then [] :: r
    else
      match r with
      | [] => [[x]]
      | y :: ys => (x :: y) :: ys

/-- Python `s.replace(pat, "")` for a one-character pattern (as in
`.replace("v", "")`): remove every occurrence. -/
def removeChar (c : Char) (cs : List Char) : List Char :=
  cs.filter (fun x => !(x == c))

/-- `ePIC._get_fw_ver` (lines 230-243): resolve the summary dependency, read
`web_summary["Software"]`, take `fw_ver.split(" ")[1].replace("v", "")`;
only `KeyError` is caught (yielding `None`), so a string with no token at
position 1 raises `IndexError` and a non-string raises `AttributeError`. -/
def get_fw_ver (web_summary : Option Json) (fetchSummary : Fetch) :
    Except PyExc (Option String) :=
  match (resolveDep web_summary fetchSummary).1 with
  | none => Except.ok none
  | some s =>
    let body : Except PyExc (Option String) := do
      let sw ← s.getKey "Software"
      match sw with
      | Json.str v =>
        match (pySplitChar ' ' v.data)[1]? with
        | some tok => pure (some (String.mk (removeChar 'v' tok)))
        | none => Except.error PyExc.indexError
      | _ => Except.error PyExc.attributeError
    match body with
    | Except.error PyExc.keyError => Except.ok none
    | r => r

/-- The fan loop of `_get_fans` (lines 255-259): for each key of the
`"Fans Rpm"` mapping, try `Fan(web_summary["Fans Rpm"][fan])`, appending the
unknown-speed `Fan()` when the lookup or construction fails with
`LookupError`/`ValueError`/`TypeError`. -/
def fansLoop (s : Json) (acc : List Fan) : List Json → Except PyExc (List Fan)
  | [] => Except.ok acc
  | fan :: rest => do
    let step : Except PyExc Fan := do
      let fj ← s.getKey "Fans Rpm"
      let v ← fj.pySubscript fan
      Fan.fromJson v
    match step with
    | Except.ok fr => fansLoop s (acc ++ [fr]) rest
    | Except.error e =>
      if e.caughtLVT then fansLoop s (acc ++ [{ speed := none }]) rest
      else Except.error e

/-- `ePIC._get_fans` (lines 245-260): resolve the summary dependency; with no
summary return the empty list; otherwise iterate `web_summary["Fans Rpm"]`
(this lookup sits outside any `try` and may raise), one `Fan` per entry. -/
def get_fans (web_summary : Option Json) (fetchSummary : Fetch) :
    Except PyExc (List Fan) :=
  match (resolveDep web_summary fetchSummary).1 with
  | none => Except.ok []
  | some s => do
    let fansJson ← s.getKey "Fans Rpm"
    let ks ← fansJson.iter
    fansLoop s [] ks

/-- Mutate one board slot of the list: `hb_list[i].field = value` on a list
index that was already resolved. -/
def setBoard (l : List HashBoard) (i : Nat) (f : HashBoard → HashBoard) :
    List HashBoard :=
  match l.get? i with
  | some b => l.set i (f b)
  | none => l

/-- The matched-board update of `_get_hashboards` (lines 284-292): when
`hr["Index"] == hb["Index"]`, set the slot's expected chip count and chip
count to `len(hr["Data"])`, clear the missing flag, set the unit-converted
rounded hashrate from `hb["Hashrate"][0]` and the temperature from
`hb["Temperature"]`.  No exception is caught here; any failure propagates
out of the extractor. -/
def updateBoard (l : List HashBoard) (hb hr : Json) :
    Except PyExc (List HashBoard) := do
  let hrIdx ← hr.getKey "Index"
  let hbIdx ← hb.getKey "Index"
  if hrIdx.pyEq hbIdx then do
    let data ← hr.getKey "Data"
    let n ← data.pyLen
    let pair ← hb.getKey "Hashrate"
    let hrv ← pair.getIdx 0
    let i ← hrIdx.toPyIndex l.length
    let l1 := setBoard l i (fun b => { b with expected_chips := some n })
    let l2 := setBoard l1 i (fun b => { b with missing := false })
    let q ← hrv.toNum
    let l3 := setBoard l2 i (fun b => { b with hashrate := some (round2 (q / 1000000)) })
    let l4 := setBoard l3 i (fun b => { b with chips := some n })
    let temp ← hb.getKey "Temperature"
    pure (setBoard l4 i (fun b => { b with temp := some temp }))
  else pure l

/-- The inner loop of `_get_hashboards` (`for hr in web_hashrate:`). -/
def hrLoop (hb : Json) (l : List HashBoard) : List Json → Except PyExc (List HashBoard)
  | [] => Except.ok l
  | hr :: rest => do
    let l2 ← updateBoard l hb hr
    hrLoop hb l2 rest

/-- The outer loop of `_get_hashboards` (`for hb in web_summary["HBs"]:`);
iterating the hashrate payload raises `TypeError` when it is `None`. -/
def boardsLoop (wh : Option Json) (l : List HashBoard) :
    List Json → Except PyExc (List HashBoard)
  | [] => Except.ok l
  | hb :: rest => do
    let hrs ← match wh with
      | none => Except.error PyExc.typeError
      | some j => j.iter
    let l2 ← hrLoop hb l hrs
    boardsLoop wh l2 rest

/-- `ePIC._get_hashboards` (lines 262-293): resolve the summary dependency
normally and the hashrate dependency through the inverted `is not None` guard;
pre-allocate one missing board per expected slot; when
`web_summary.get("HBs")` is not `None` (an `AttributeError` when the summary
is absent, since the code calls `.get` without a `None` check), match each
reported board against the hashrate payload's entries by `Index` and populate
the slot.  Nothing here is wrapped in `try`, so any parse failure propagates. -/
def get_hashboards (web_summary web_hashrate : Option Json)
    (fetchSummary fetchHashrate : Fetch)
    (expected_hashboards : Nat) (expected_chips : Option Nat) :
    Except PyExc (List HashBoard) :=
  let ws := (resolveDep web_summary fetchSummary).1
  let wh := (resolveHashrateDep web_hashrate fetchHashrate).1
  let init := (List.range expected_hashboards).map
    (fun i => { slot := i, expected_chips := expected_chips : HashBoard })
  match ws with
  | none => Except.error PyExc.attributeError
  | some s => do
    let hbs ← s.get "HBs"
    match hbs with
    | Json.null => pure init
    | _ => do
      let boards ← (← s.getKey "HBs").iter
      boardsLoop wh init boards

/-- `ePIC._get_wattage` (lines 176-189): resolve the summary dependency, read
`web_summary["Power Supply Stats"]["Input Power"]` and round it to the nearest
whole unit; only `KeyError` is caught (yielding `None`). -/
def get_wattage (web_summary : Option Json) (fetchSummary : Fetch) :
    Except PyExc (Option ℤ) :=
  match (resolveDep web_summary fetchSummary).1 with
  | none => Except.ok none
  | some s =>
    let body : Except PyExc (Option ℤ) := do
      let ps ← s.getKey "Power Supply Stats"
      let ip ← ps.getKey "Input Power"
      let w ← ip.pyRound
      pure (some w)
    match body with
    | Except.error PyExc.keyError => Except.ok none
    | r => r

/-- `ePIC._get_uptime` (lines 298-311): resolve the summary dependency, return
`web_summary["Session"]["Uptime"]` as-is; only `KeyError` is caught and the
function falls through to `None`. -/
def get_uptime (web_summary : Option Json) (fetchSummary : Fetch) :
    Except PyExc (Option Json) :=
  match (resolveDep web_summary fetchSummary).1 with
  | none => Except.ok none
  | some s =>
    let body : Except PyExc (Option Json) := do
      let sess ← s.getKey "Session"
      let u ← sess.getKey "Uptime"
      pure (some u)
    match body with
    | Except.error PyExc.keyError => Except.ok none
    | r => r

/-- `ePIC._get_fault_light` (lines 313-326): resolve the summary dependency,
return `web_summary["Misc"]["Locate Miner State"]`; only `KeyError` is caught,
and every failure path falls through to the concrete `return False`. -/
def get_fault_light (web_summary : Option Json) (fetchSummary : Fetch) :
    Except PyExc Json :=
  match (resolveDep web_summary fetchSummary).1 with
  | none => Except.ok (Json.bool false)
  | some s =>
    let body : Except PyExc Json := do
      let m ← s.getKey "Misc"
      m.getKey "Locate Miner State"
    match body with
    | Except.error PyExc.keyError => Except.ok (Json.bool false)
    | r => r

/-- `ePIC._is_mining` (lines 295-296): always `None` (absent). -/
def is_mining : Except PyExc (Option Bool) := Except.ok none

/-- `ePIC._get_mac` (lines 147-160): resolve the network dependency, return
the `mac_address` of the first interface entry (the loop returns on its first
iteration); only `KeyError` is caught, so iterating a non-iterable payload
raises `TypeError`. -/
def get_mac (web_network : Option Json) (fetchNetwork : Fetch) :
    Except PyExc (Option Json) :=
  match (resolveDep web_network fetchNetwork).1 with
  | none => Except.ok none
  | some s =>
    let body : Except PyExc (Option Json) := do
      let ks ← s.iter
      match ks with
      | [] => pure none
      | k :: _ => do
        let entry ← s.pySubscript k
        let mac ← entry.getKey "mac_address"
        pure (some mac)
    match body with
    | Except.error PyExc.keyError => Except.ok none
    | r => r

/-- `ePIC.fault_light_on` (lines 349-350): `return False`.  The second
component lists the transport commands the body issues — none. -/
def fault_light_on : Bool × List String := (false, [])

/-- `ePIC.fault_light_off` (lines 346-347): `return False`; no transport
command issued. -/
def fault_light_off : Bool × List String := (false, [])

/-- `ePIC.set_power_limit` (lines 367-368): `return False` for any wattage;
no transport command issued. -/
def set_power_limit (wattage : ℤ) : Bool × List String := (false, [])

/-- `ePIC.send_config` (lines 364-365): `pass` — returns `None` for any
configuration; no transport command issued. -/
def send_config (config : MinerConfig) : Unit × List String := ((), [])

theorem expectedBoard_eval (hb : Json) (m p : ℚ)
    (h : hb.getKey "Hashrate" = Except.ok (Json.arr [Json.num m, Json.num p])) :
    expectedBoard hb = Except.ok (m / (if p = 0 then 1 else p / 100)) := by
  unfold expectedBoard idealOf
  rw [h]
  by_cases hp : p = 0 <;>
    simp [Json.getIdx, Json.eqZero, Json.toNum, Bind.bind, Except.bind, pure,
      Except.pure, hp]

theorem sumExpected_eval (bs : List Json) (vals : List (ℚ × ℚ))
    (h : List.Forall₂ (fun hb mp => hb.getKey "Hashrate" =
      Except.ok (Json.arr [Json.num mp.1, Json.num mp.2])) bs vals) (acc : ℚ) :
    sumExpected acc bs = Except.ok (acc +
      (vals.map (fun mp => mp.1 / (if mp.2 = 0 then 1 else mp.2 / 100))).sum) := by
  induction h generalizing acc with
  | nil => simp [sumExpected]
  | cons h1 h2 ih =>
    simp [sumExpected, expectedBoard_eval _ _ _ h1, Bind.bind, Except.bind, ih,
      add_assoc]

/-- C1: for every summary payload whose hashboard list is present, the
expected-hashrate extractor sums, over all boards, the measured hashrate
(first element of the two-element `Hashrate` pair) divided by the efficiency
ratio `ideal-percentage / 100`, a board with ideal-percentage exactly 0 using
divisor 1.0 instead — so such a board contributes its raw measured value —
and the total is divided by 1,000,000 and rounded to 2 decimal places. -/
theorem C1_expected_hashrate (kvs : List (String × Json)) (bs : List Json)
    (vals : List (ℚ × ℚ)) (f : Fetch)
    (hHBs : kvs.lookup "HBs" = some (Json.arr bs))
    (hboards : List.Forall₂ (fun hb mp => hb.getKey "Hashrate" =
      Except.ok (Json.arr [Json.num mp.1, Json.num mp.2])) bs vals) :
    get_expected_hashrate (some (Json.obj kvs)) f =
      Except.ok (some (round2
        ((vals.map (fun mp => mp.1 / (if mp.2 = 0 then 1 else mp.2 / 100))).sum
          / 1000000))) := by
  unfold get_expected_hashrate resolveDep expectedHashrateBody
  simp [Json.get, Json.getKey, hHBs, Json.iter, Bind.bind, Except.bind,
    pure, Except.pure, sumExpected_eval bs vals hboards 0]

/-- C1 witness: a two-board summary, one board with ideal-percentage 0
(contributing its raw 1,000,000 = 1.0 after unit conversion) and one with
ideal-percentage 50 (contributing 2,000,000 / 0.5 = 4.0), totalling 5.0. -/
theorem C1_expected_hashrate_witness :
    get_expected_hashrate (some (Json.obj [("HBs", Json.arr
      [Json.obj [("Hashrate", Json.arr [Json.num 1000000, Json.num 0])],
       Json.obj [("Hashrate", Json.arr [Json.num 2000000, Json.num 50])]])]))
      (Except.error ()) = Except.ok (some 5) := by
  have h := C1_expected_hashrate
    [("HBs", Json.arr
      [Json.obj [("Hashrate", Json.arr [Json.num 1000000, Json.num 0])],
       Json.obj [("Hashrate", Json.arr [Json.num 2000000, Json.num 50])]])]
    [Json.obj [("Hashrate", Json.arr [Json.num 1000000, Json.num 0])],
     Json.obj [("Hashrate", Json.arr [Json.num 2000000, Json.num 50])]]
    [(1000000, 0), (2000000, 50)] (Except.error ()) rfl
    (by
      refine List.Forall₂.cons rfl (List.Forall₂.cons rfl List.Forall₂.nil))
  rw [h]
  norm_num [round2]

theorem getKey_not_attr (j : Json) (k : String) :
    j.getKey k ≠ Except.error PyExc.attributeError := by
  unfold Json.getKey
  rcases j with _ | b | q | s | xs | kvs <;> try simp
  cases kvs.lookup k <;> simp

theorem getIdx_not_attr (j : Json) (i : Nat) :
    j.getIdx i ≠ Except.error PyExc.attributeError := by
  unfold Json.getIdx
  rcases j with _ | b | q | s | xs | kvs
  · simp
  · simp
  · simp
  · cases hx : s.data[i]? <;> simp [hx]
  · cases hx : xs[i]? <;> simp [hx]
  · simp

theorem toNum_not_attr (j : Json) :
    j.toNum ≠ Except.error PyExc.attributeError := by
  cases j <;> simp [Json.toNum]

theorem iter_not_attr (j : Json) :
    j.iter ≠ Except.error PyExc.attributeError := by
  cases j <;> simp [Json.iter]

theorem bind_not_attr {α β : Type} (ma : Except PyExc α) (f : α → Except PyExc β)
    (h1 : ma ≠ Except.error PyExc.attributeError)
    (h2 : ∀ a, f a ≠ Except.error PyExc.attributeError) :
    (ma >>= f) ≠ Except.error PyExc.attributeError := by
  cases ma with
  | error e => simpa [Bind.bind, Except.bind] using h1
  | ok a => simpa [Bind.bind, Except.bind] using h2 a

theorem idealOf_not_attr (snd : Json) :
    idealOf snd ≠ Except.error PyExc.attributeError := by
  unfold idealOf
  by_cases h : snd.eqZero = true
  · simp [h, pure, Except.pure]
  · simp only [h, if_neg, Bool.false_eq_true, if_false]
    refine bind_not_attr _ _ (toNum_not_attr _) (fun q => ?_)
    simp [pure, Except.pure]

theorem expectedBoard_not_attr (hb : Json) :
    expectedBoard hb ≠ Except.error PyExc.attributeError := by
  unfold expectedBoard
  refine bind_not_attr _ _ (getKey_not_attr _ _) (fun pair => ?_)
  refine bind_not_attr _ _ (getIdx_not_attr _ _) (fun snd => ?_)
  refine bind_not_attr _ _ (idealOf_not_attr _) (fun ideal => ?_)
  refine bind_not_attr _ _ (getIdx_not_attr _ _) (fun fst => ?_)
  refine bind_not_attr _ _ (toNum_not_attr _) (fun m => ?_)
  simp [pure, Except.pure]

theorem sumExpected_not_attr (bs : List Json) (acc : ℚ) :
    sumExpected acc bs ≠ Except.error PyExc.attributeError := by
  induction bs generalizing acc with
  | nil => simp [sumExpected]
  | cons hb rest ih =>
    unfold sumExpected
    exact bind_not_attr _ _ (expectedBoard_not_attr hb) (fun v => ih _)

theorem caughtLVT_of_not_attr (e : PyExc) (h : e ≠ PyExc.attributeError) :
    e.caughtLVT = true := by
  cases e <;> simp_all [PyExc.caughtLVT]

/-- C2 counterexample: the firmware-version extractor, given a summary whose
`"Software"` value holds only one whitespace token, propagates an `IndexError`
to the caller instead of yielding an absent value — refuting the claim that no
extractor ever propagates an exception on malformed input. -/
theorem C2_fw_ver_propagates :
    get_fw_ver (some (Json.obj [("Software", Json.str "onetoken")]))
      (Except.error ()) = Except.error PyExc.indexError := by
  rfl

/-- C2 amended: an extraction failure in the exception class an extractor
catches is non-fatal and yields an absent value — the firmware-version
extractor returns absent when the `Software` key is missing, and the
expected-hashrate extractor, whose whole body is guarded by
`except (LookupError, ValueError, TypeError)`, never propagates an exception
on any dict payload — but failures outside an extractor's caught classes
(such as the `IndexError` of the firmware-version extractor, which catches
only `KeyError`, or any parse failure in the hashboard extractor, which
catches nothing) propagate to the caller. -/
theorem C2_extractor_failure_modes (kvs : List (String × Json)) (f : Fetch) :
    (kvs.lookup "Software" = none →
      get_fw_ver (some (Json.obj kvs)) f = Except.ok none) ∧
    (∃ r, get_expected_hashrate (some (Json.obj kvs)) f = Except.ok r) := by
  constructor
  · intro h
    unfold get_fw_ver resolveDep
    simp [Json.getKey, h, Bind.bind, Except.bind]
  · unfold get_expected_hashrate resolveDep
    simp only
    have hbody : expectedHashrateBody (Json.obj kvs) ≠
        Except.error PyExc.attributeError := by
      unfold expectedHashrateBody
      refine bind_not_attr _ _ (by simp [Json.get]) (fun hbs => ?_)
      cases hbs
      case null => simp [pure, Except.pure]
      all_goals
        refine bind_not_attr _ _ (getKey_not_attr _ _) (fun l => ?_)
      all_goals
        refine bind_not_attr _ _ (iter_not_attr _) (fun boards => ?_)
      all_goals
        refine bind_not_attr _ _ (sumExpected_not_attr _ _) (fun total => ?_)
      all_goals simp [pure, Except.pure]
    cases hb : expectedHashrateBody (Json.obj kvs) with
    | ok v => exact ⟨v, rfl⟩
    | error e =>
      refine ⟨none, ?_⟩
      have hc : e.caughtLVT = true :=
        caughtLVT_of_not_attr e (fun he => hbody (by rw [hb, he]))
      simp [hc]

/-- C2 witness: on the empty summary dict, the firmware-version extractor
yields absent (the missing key is in its caught class) and the
expected-hashrate extractor yields a non-exceptional result. -/
theorem C2_extractor_failure_modes_witness :
    get_fw_ver (some (Json.obj [])) (Except.error ()) = Except.ok none ∧
    ∃ r, get_expected_hashrate (some (Json.obj [])) (Except.error ()) =
      Except.ok r :=
  ⟨(C2_extractor_failure_modes [] (Except.error ())).1 rfl,
   (C2_extractor_failure_modes [] (Except.error ())).2⟩

/-- C3: with an expected hashboard count of 3 and the summary and per-chip-data
payloads reporting only the board with `Index` 1 (equal in both payloads), the
hashboard extractor returns a list of length 3 whose slots 0 and 2 remain
flagged missing while slot 1 is not missing, has chip count equal to the
length of the board's chip-data array, hashrate divided by 1,000,000 and
rounded to 2 decimals, and the temperature from the summary payload.  (Because
of the inverted dependency guard — see the C4 theorem — the extractor
re-fetches the hashrate payload when one is supplied; here the device reports
the same payload on that fetch.) -/
theorem C3_hashboard_assembly (m : ℚ) (p t : Json) (ds : List Json)
    (ec : Option Nat) (fS : Fetch) :
    get_hashboards
      (some (Json.obj [("HBs", Json.arr
        [Json.obj [("Index", Json.num 1),
                   ("Hashrate", Json.arr [Json.num m, p]),
                   ("Temperature", t)]])]))
      (some (Json.arr [Json.obj [("Index", Json.num 1), ("Data", Json.arr ds)]]))
      fS
      (Except.ok (Json.arr
        [Json.obj [("Index", Json.num 1), ("Data", Json.arr ds)]]))
      3 ec =
    Except.ok
      [{ slot := 0, expected_chips := ec },
       { slot := 1, expected_chips := some ds.length, chips := some ds.length,
         hashrate := some (round2 (m / 1000000)), temp := some t,
         missing := false },
       { slot := 2, expected_chips := ec }] := by
  unfold get_hashboards resolveDep resolveHashrateDep
  simp [Json.get, Json.getKey, Json.iter, boardsLoop, hrLoop, updateBoard,
    Json.pyEq, Json.beq, Json.toPyIndex, Json.pyLen, Json.getIdx, Json.toNum,
    setBoard, Bind.bind, Except.bind, pure, Except.pure, List.range_succ,
    List.lookup]

/-- C4 (code bug): the hashrate-payload dependency of the hashboard extractor
is resolved through an inverted guard (`if web_hashrate is not None:`): a
transport fetch is attempted exactly when the payload WAS supplied and never
when it was absent, the opposite of the `resolveDep` pattern every other
extractor (e.g. `_get_mac`) uses.  Consequently a supplied hashrate payload is
ignored in favour of the fetched one (fourth conjunct: the supplied matching
entry is discarded for the fetched empty list, leaving the board missing),
and when the dependency is not supplied the extractor raises `TypeError`
iterating `None` (fifth conjunct). -/
theorem C4_inverted_hashrate_guard :
    (resolveHashrateDep (some (Json.arr [])) (Except.ok (Json.obj []))).2 = true ∧
    (resolveHashrateDep none (Except.ok (Json.obj []))).2 = false ∧
    (resolveDep (some (Json.arr [])) (Except.ok (Json.obj []))).2 = false ∧
    get_hashboards
      (some (Json.obj [("HBs", Json.arr [Json.obj
        [("Index", Json.num 0),
         ("Hashrate", Json.arr [Json.num 1000000, Json.num 100]),
         ("Temperature", Json.num 60)]])]))
      (some (Json.arr
        [Json.obj [("Index", Json.num 0), ("Data", Json.arr [Json.null])]]))
      (Except.error ()) (Except.ok (Json.arr [])) 1 none =
      Except.ok [{ slot := 0 }] ∧
    get_hashboards
      (some (Json.obj [("HBs", Json.arr [Json.obj [("Index", Json.num 0)]])]))
      none (Except.error ())
      (Except.ok (Json.arr
        [Json.obj [("Index", Json.num 0), ("Data", Json.arr [Json.null])]]))
      1 none =
      Except.error PyExc.typeError :=
  ⟨rfl, rfl, rfl, rfl, rfl⟩

/-- Follows the amended C5 claim's words, for comparison with the four action
operations: the success-flag value for a truthy mapping response containing
the flag; `False` for a falsy response, for a mapping without the flag, and
for a failed transport call; `TypeError` for a truthy non-mapping response. -/
def actionResultSpec (d : Option Json) : Except PyExc Json :=
  match d with
  | none => Except.ok (Json.bool false)
  | some j =>
    if j.truthy then
      match j with
      | Json.obj kvs =>
        match kvs.lookup "success" with
        | some v => Except.ok v
        | none => Except.ok (Json.bool false)
      | _ => Except.error PyExc.typeError
    else Except.ok (Json.bool false)

/-- C5 counterexample: a truthy non-mapping response (a one-element list),
which lacks the success flag, makes `restart_backend` raise `TypeError`
instead of returning `False`. -/
theorem C5_truthy_nonmapping_raises :
    restart_backend (some (Json.arr [Json.null])) =
      Except.error PyExc.typeError := rfl

/-- C5 amended: each of the four action operations returns the response's
success-flag value when the response is truthy and is a mapping containing
that flag, and returns `False` when the response is falsy, is a mapping
lacking the flag, or the transport call failed; a truthy non-mapping
response raises `TypeError` (only `KeyError` is caught). -/
theorem C5_action_success_flag (d : Option Json) :
    restart_backend d = actionResultSpec d ∧
    stop_mining d = actionResultSpec d ∧
    resume_mining d = actionResultSpec d ∧
    reboot d = actionResultSpec d := by
  have h : restart_backend d = actionResultSpec d := by
    cases d with
    | none => rfl
    | some j =>
      cases j <;>
        simp only [restart_backend, actionResultSpec, Json.getKey, Json.truthy]
      case obj kvs =>
        cases hl : kvs.lookup "success" <;> simp [hl]
  exact ⟨h, h, h, h⟩

/-- C6: for every outcome of the native configuration fetch — payload
obtained, `None` returned, transport error, lookup failure — `get_config`
returns a configuration object and never raises: the translation of the
native payload when one was obtained, the empty default otherwise. -/
theorem C6_get_config_total (j : Json) :
    get_config (SummaryFetch.payload j) = MinerConfig.from_epic j ∧
    get_config SummaryFetch.returnedNone = MinerConfig.empty ∧
    get_config SummaryFetch.apiError = MinerConfig.empty ∧
    get_config SummaryFetch.lookupError = MinerConfig.empty :=
  ⟨rfl, rfl, rfl, rfl⟩

/-- C7 counterexample: `.replace("v", "")` removes every occurrence of the
character, not just a leading version-prefix — `"ePIC v1.0-dev"` yields
`"1.0-de"`, not the claimed `"1.0-dev"` — and a `Software` string with no
token at position 1 raises `IndexError` instead of yielding absent. -/
theorem C7_replace_all_occurrences :
    (get_fw_ver (some (Json.obj [("Software", Json.str "ePIC v1.0-dev")]))
        (Except.error ()) = Except.ok (some "1.0-de") ∧
      "1.0-de" ≠ "1.0-dev") ∧
    get_fw_ver (some (Json.obj [("Software", Json.str "epicminer")]))
      (Except.error ()) = Except.error PyExc.indexError :=
  ⟨⟨rfl, by decide⟩, rfl⟩

/-- C7 amended: for a summary whose `"Software"` field is a string, the
firmware-version extractor returns the whitespace-delimited token at position
1 with every occurrence of the character `v` removed, and raises `IndexError`
when the string has no token at that position; absent is returned only when
the `Software` field is missing. -/
theorem C7_fw_ver_behaviour (kvs : List (String × Json)) (s : String)
    (f : Fetch) :
    (kvs.lookup "Software" = some (Json.str s) →
      get_fw_ver (some (Json.obj kvs)) f =
        match (pySplitChar ' ' s.data)[1]? with
        | some tok => Except.ok (some (String.mk (removeChar 'v' tok)))
        | none => Except.error PyExc.indexError) ∧
    (kvs.lookup "Software" = none →
      get_fw_ver (some (Json.obj kvs)) f = Except.ok none) := by
  constructor
  · intro h
    unfold get_fw_ver resolveDep
    simp only [Json.getKey, h]
    cases hx : (pySplitChar ' ' s.data)[1]? <;>
      simp [hx, Bind.bind, Except.bind, pure, Except.pure]
  · intro h
    unfold get_fw_ver resolveDep
    simp [Json.getKey, h, Bind.bind, Except.bind]

/-- C7 witness: `"ePIC v1.2 beta"` splits into tokens `ePIC`, `v1.2`, `beta`;
the token at position 1 yields `"1.2"`. -/
theorem C7_fw_ver_behaviour_witness :
    get_fw_ver (some (Json.obj [("Software", Json.str "ePIC v1.2 beta")]))
      (Except.error ()) = Except.ok (some "1.2") := by
  have h := (C7_fw_ver_behaviour [("Software", Json.str "ePIC v1.2 beta")]
    "ePIC v1.2 beta" (Except.error ())).1 rfl
  rw [h]
  rfl

theorem lookup_self (fans : List (String × Json)) (k : String) (v : Json)
    (hnd : (fans.map Prod.fst).Nodup) (hmem : (k, v) ∈ fans) :
    fans.lookup k = some v := by
  induction fans with
  | nil => simp at hmem
  | cons kv rest ih =>
    obtain ⟨k1, v1⟩ := kv
    simp only [List.map_cons, List.nodup_cons] at hnd
    rcases List.mem_cons.mp hmem with heq | hmem2
    · cases heq
      simp [List.lookup]
    · have hne : (k == k1) = false := by
        refine beq_eq_false_iff_ne.mpr (fun hkk => hnd.1 ?_)
        exact hkk ▸ List.mem_map.mpr ⟨(k, v), hmem2, rfl⟩
      simp [List.lookup, hne, ih hnd.2 hmem2]

theorem fansLoop_eval (kvs fans : List (String × Json))
    (h : kvs.lookup "Fans Rpm" = some (Json.obj fans))
    (l : List (String × Json)) (acc : List Fan) :
    (∀ kv ∈ l, fans.lookup kv.1 = some kv.2) →
    fansLoop (Json.obj kvs) acc (l.map (fun kv => Json.str kv.1)) =
      Except.ok (acc ++ l.map (fun kv =>
        match kv.2 with
        | Json.num q => { speed := some q }
        | _ => { speed := none })) := by
  induction l generalizing acc with
  | nil => intro _; simp [fansLoop]
  | cons kv rest ih =>
    intro hl
    have hkv := hl kv (List.mem_cons_self kv rest)
    have hrest : ∀ kv2 ∈ rest, fans.lookup kv2.1 = some kv2.2 :=
      fun kv2 hm => hl kv2 (List.mem_cons_of_mem kv hm)
    cases hv : kv.2
    all_goals
      simp only [List.map_cons, fansLoop, Json.getKey, h, Json.pySubscript,
        hkv, hv, Fan.fromJson, Bind.bind, Except.bind, pure, Except.pure,
        PyExc.caughtLVT]
    all_goals rw [ih _ hrest]
    all_goals simp

/-- C8: for every summary whose `"Fans Rpm"` field is a mapping (with the
distinct keys of a Python dict), the fan extractor returns one `Fan` record
per entry — the list length equals the number of entries — where an entry
whose speed value is numeric parses into that speed and an entry whose value
fails to parse yields the unknown-speed record in place rather than being
dropped or aborting the list. -/
theorem C8_fan_per_entry (kvs fans : List (String × Json)) (f : Fetch)
    (h : kvs.lookup "Fans Rpm" = some (Json.obj fans))
    (hnd : (fans.map Prod.fst).Nodup) :
    get_fans (some (Json.obj kvs)) f =
      Except.ok (fans.map (fun kv =>
        match kv.2 with
        | Json.num q => { speed := some q }
        | _ => { speed := none })) := by
  unfold get_fans resolveDep
  simp only [Json.getKey, h, Json.iter, Bind.bind, Except.bind]
  have he := fansLoop_eval kvs fans h fans []
    (fun kv hm => lookup_self fans kv.1 kv.2 hnd (by simpa using hm))
  simpa using he

/-- C8 witness: a two-fan mapping with one numeric speed and one malformed
(string) speed yields exactly two records, the malformed one unknown-speed. -/
theorem C8_fan_per_entry_witness :
    get_fans (some (Json.obj [("Fans Rpm", Json.obj
      [("Fan 1", Json.num 3000), ("Fan 2", Json.str "stopped")])]))
      (Except.error ()) =
      Except.ok [{ speed := some 3000 }, { speed := none }] := by
  have h := C8_fan_per_entry
    [("Fans Rpm", Json.obj
      [("Fan 1", Json.num 3000), ("Fan 2", Json.str "stopped")])]
    [("Fan 1", Json.num 3000), ("Fan 2", Json.str "stopped")]
    (Except.error ()) rfl (by decide)
  rw [h]
  rfl

/-- C9 counterexample: on a summary missing the `"Misc"` key, the fault-light
extractor returns the concrete default `False` — not a distinguishable
absent/no-value outcome — and on a wrongly-typed intermediate (`"Session"`
bound to a number), the uptime extractor raises `TypeError` instead of
returning absent. -/
theorem C9_fault_light_concrete_false :
    get_fault_light (some (Json.obj [])) (Except.error ()) =
      Except.ok (Json.bool false) ∧
    get_uptime (some (Json.obj [("Session", Json.num 5)])) (Except.error ()) =
      Except.error PyExc.typeError :=
  ⟨rfl, rfl⟩

/-- C9 amended: when the fixed JSON path fails with a missing key — or the
summary itself is absent — the scalar extractors uptime and wattage return
absent and the mining-active extractor is always absent, but the fault-light
extractor returns the concrete default `False` instead of absent; a
wrongly-typed intermediate value raises `TypeError` in these extractors
(only `KeyError` is caught). -/
theorem C9_path_failure_defaults (kvs : List (String × Json)) (f : Fetch) :
    (kvs.lookup "Session" = none →
      get_uptime (some (Json.obj kvs)) f = Except.ok none) ∧
    (kvs.lookup "Power Supply Stats" = none →
      get_wattage (some (Json.obj kvs)) f = Except.ok none) ∧
    (kvs.lookup "Misc" = none →
      get_fault_light (some (Json.obj kvs)) f = Except.ok (Json.bool false)) ∧
    get_uptime none (Except.error ()) = Except.ok none ∧
    get_wattage none (Except.error ()) = Except.ok none ∧
    get_fault_light none (Except.error ()) = Except.ok (Json.bool false) ∧
    is_mining = Except.ok none := by
  refine ⟨?_, ?_, ?_, rfl, rfl, rfl, rfl⟩
  · intro h
    unfold get_uptime resolveDep
    simp [Json.getKey, h, Bind.bind, Except.bind]
  · intro h
    unfold get_wattage resolveDep
    simp [Json.getKey, h, Bind.bind, Except.bind]
  · intro h
    unfold get_fault_light resolveDep
    simp [Json.getKey, h, Bind.bind, Except.bind]

/-- C9 witness: on the empty summary dict, uptime and wattage are absent and
the fault light is the concrete `False`. -/
theorem C9_path_failure_defaults_witness :
    get_uptime (some (Json.obj [])) (Except.error ()) = Except.ok none ∧
    get_wattage (some (Json.obj [])) (Except.error ()) = Except.ok none ∧
    get_fault_light (some (Json.obj [])) (Except.error ()) =
      Except.ok (Json.bool false) :=
  ⟨(C9_path_failure_defaults [] (Except.error ())).1 rfl,
   (C9_path_failure_defaults [] (Except.error ())).2.1 rfl,
   (C9_path_failure_defaults [] (Except.error ())).2.2.1 rfl⟩

/-- C10: the ePIC adapter's `fault_light_on`, `fault_light_off` and
`set_power_limit` return `False` unconditionally and `send_config` returns
without effect, and none of them issues any Transport Client call (each
definition's second component lists the commands issued — none). -/
theorem C10_unsupported_noops (w : ℤ) (cfg : MinerConfig) :
    fault_light_on = (false, []) ∧
    fault_light_off = (false, []) ∧
    set_power_limit w = (false, []) ∧
    send_config cfg = ((), []) :=
  ⟨rfl, rfl, rfl, rfl⟩
